import Mathlib

/-!
Shallow embedding of the agent-monitoring-demo-app backend
(`server/agents/databricks_assistant/{auth,tools,agent}.py`,
`server/agents/databricks_assistant.py`, `server/agents/model_serving.py`).

Environment variables and optional Python attributes are modelled as
`Option String`; Python truthiness of an optional string (None and the
empty string are falsy) is `truthy`.  Fallible remote calls (the
Databricks SDK list APIs, the LangChain agent executor, the OpenAI
chat-completions call) are modelled as explicit `Except String`-valued
parameters, an exception being `Except.error` carrying `str(e)`.
-/

namespace AgentMonitoringDemo

/-- Python truthiness of an optional string: `None` and `""` are falsy. -/
def truthy : Option String → Bool
  | none => false
  | some s => !(s == "")

/-- List-level starts-with test (used to model Python `str.startswith`). -/
def listIsPre : List Char → List Char → Bool
  | [], _ => true
  | _ :: _, [] => false
  | a :: as, b :: bs => a == b && listIsPre as bs

/-- Python `s.startswith(p)` on code points. -/
def pyStartsWith (s p : String) : Bool :=
  listIsPre p.data s.data

/-- Python slicing `s[n:]` on code points. -/
def pyDrop (s : String) (n : Nat) : String :=
  ⟨s.data.drop n⟩

/-- The two-line scheme-stripping idiom that appears verbatim in
`auth.py` lines 33-34, `databricks_assistant.py` lines 53-54 and
`model_serving.py` lines 44-45 and 62-63:
`if databricks_host.startswith('https://'): databricks_host = databricks_host[8:]`. -/
def stripHttps (host : String) : String :=
  if pyStartsWith host "https://" then pyDrop host 8 else host

/-- Python `', '.join(names)`. -/
def commaJoin (names : List String) : String :=
  String.intercalate ", " names

/-- The truthiness filter of the list comprehensions
`[x.name for x in xs if x.name]`: keep a name only when it is a
non-empty string. -/
def keepName : Option String → Option String
  | none => none
  | some n => if n == "" then none else some n

/-- The output string starts with the literal `"Error "`. -/
def startsWithErr (sout : String) : Prop :=
  ∃ rest, sout = "Error " ++ rest

/-- The output string contains `m` as a contiguous substring. -/
def containsStr (sout m : String) : Prop :=
  ∃ p q, sout = p ++ m ++ q

/-- Environment configuration relevant to credential resolution. -/
structure Env where
  client_id : Option String
  client_secret : Option String
  host : Option String
  token : Option String
  deriving Repr, DecidableEq

/-- How the `WorkspaceClient` is constructed: with no explicit
arguments (SDK default / OAuth chain) or with an explicit host+token. -/
inductive ClientConfig where
  | default
  | hostToken (host token : String)
  deriving Repr, DecidableEq

namespace Auth

/-- `get_workspace_client` from
`server/agents/databricks_assistant/auth.py` lines 11-39: OAuth pair →
no-argument client; else host+token (scheme stripped) → explicit
client; else no-argument client (SDK default chain).  Total: no local
raise in any branch. -/
def get_workspace_client (env : Env) : ClientConfig :=
  if truthy env.client_id && truthy env.client_secret then
    ClientConfig.default
  else if truthy env.token && truthy env.host then
    ClientConfig.hostToken (stripHttps (env.host.getD "")) (env.token.getD "")
  else
    ClientConfig.default

end Auth

namespace Assistant

/-- `get_workspace_client` from `server/agents/databricks_assistant.py`
lines 42-56: raises `ValueError` when the token (checked first) or the
host is missing or empty; otherwise builds the explicit host+token
client with the scheme stripped.  It has no OAuth or default-chain
branch. -/
def get_workspace_client (env : Env) : Except String ClientConfig :=
  if !truthy env.token then
    Except.error "DATABRICKS_TOKEN environment variable is required"
  else if !truthy env.host then
    Except.error "DATABRICKS_HOST environment variable is required"
  else
    Except.ok (ClientConfig.hostToken (stripHttps (env.host.getD "")) (env.token.getD ""))

end Assistant

/-- A catalog entry returned by `w.catalogs.list()`; only `name` is read. -/
structure CatalogInfo where
  name : Option String
  deriving Repr, DecidableEq

/-- A schema entry returned by `w.schemas.list()`; only `name` is read. -/
structure SchemaInfo where
  name : Option String
  deriving Repr, DecidableEq

/-- A table entry returned by `w.tables.list()`: `name` and the
optionally-present `table_type` attribute (absent = `none`, read via
`getattr(table, 'table_type', 'TABLE')`). -/
structure TableInfo where
  name : Option String
  table_type : Option String
  deriving Repr, DecidableEq

/-- A volume entry returned by `w.volumes.list()`; only `name` is read. -/
structure VolumeInfo where
  name : Option String
  deriving Repr, DecidableEq

namespace Tools

/-- `catalog_names = [cat.name for cat in catalogs if cat.name]`
(`tools.py` line 39). -/
def catalog_names (catalogs : List CatalogInfo) : List String :=
  catalogs.filterMap fun cat => keepName cat.name

/-- `schema_names = [schema.name for schema in schemas if schema.name]`
(`tools.py` line 53). -/
def schema_names (schemas : List SchemaInfo) : List String :=
  schemas.filterMap fun schema => keepName schema.name

/-- `volume_names = [vol.name for vol in volumes if vol.name]`
(`tools.py` line 86). -/
def volume_names (volumes : List VolumeInfo) : List String :=
  volumes.filterMap fun vol => keepName vol.name

/-- The `table_info` accumulation loop of `list_tables`
(`tools.py` lines 67-71): keep tables with a truthy name and render
each as `f'{table.name} ({table_type})'` with
`table_type = getattr(table, 'table_type', 'TABLE')`. -/
def tableInfoLoop : List TableInfo → List String
  | [] => []
  | table :: rest =>
    match table.name with
    | none => tableInfoLoop rest
    | some n =>
      if n == "" then tableInfoLoop rest
      else (n ++ " (" ++ table.table_type.getD "TABLE" ++ ")") :: tableInfoLoop rest

/-- `list_catalogs` (`tools.py` lines 34-45).  The fallible prefix
`get_workspace_client(); w.catalogs.list()` is the `remote` parameter;
`query` is the unused tool argument.  Total: every exception from the
remote call is caught and stringified, none propagates. -/
def list_catalogs (remote : Except String (List CatalogInfo)) (query : String) : String :=
  match remote with
  | Except.ok catalogs =>
    if !(catalog_names catalogs).isEmpty then
      "Available catalogs: " ++ commaJoin (catalog_names catalogs)
    else
      "No catalogs found in the workspace."
  | Except.error e => "Error listing catalogs: " ++ e

/-- `list_schemas` (`tools.py` lines 48-59). -/
def list_schemas (remote : Except String (List SchemaInfo)) (catalog_name : String) : String :=
  match remote with
  | Except.ok schemas =>
    if !(schema_names schemas).isEmpty then
      "Schemas in catalog \"" ++ catalog_name ++ "\": " ++ commaJoin (schema_names schemas)
    else
      "No schemas found in catalog \"" ++ catalog_name ++ "\"."
  | Except.error e =>
    "Error listing schemas in catalog \"" ++ catalog_name ++ "\": " ++ e

/-- `list_tables` (`tools.py` lines 62-78). -/
def list_tables (remote : Except String (List TableInfo))
    (catalog_name schema_name : String) : String :=
  match remote with
  | Except.ok tables =>
    if !(tableInfoLoop tables).isEmpty then
      "Tables in " ++ catalog_name ++ "." ++ schema_name ++ ": " ++
        commaJoin (tableInfoLoop tables)
    else
      "No tables found in " ++ catalog_name ++ "." ++ schema_name ++ "."
  | Except.error e =>
    "Error listing tables in " ++ catalog_name ++ "." ++ schema_name ++ ": " ++ e

/-- `list_volumes` (`tools.py` lines 81-92). -/
def list_volumes (remote : Except String (List VolumeInfo))
    (catalog_name schema_name : String) : String :=
  match remote with
  | Except.ok volumes =>
    if !(volume_names volumes).isEmpty then
      "Volumes in " ++ catalog_name ++ "." ++ schema_name ++ ": " ++
        commaJoin (volume_names volumes)
    else
      "No volumes found in " ++ catalog_name ++ "." ++ schema_name ++ "."
  | Except.error e =>
    "Error listing volumes in " ++ catalog_name ++ "." ++ schema_name ++ ": " ++ e

/-- The type string used for one table: the stored metadata, or
`"TABLE"` when absent. -/
def usedTableType (t : TableInfo) : String :=
  t.table_type.getD "TABLE"

/-- Per-table rendering described by the spec: a table with a truthy
name contributes `name ++ " (" ++ TYPE ++ ")"` where `TYPE` is the
table's type metadata, defaulting to `"TABLE"` when that metadata is
absent.  Used to state the refinement of `tableInfoLoop`. -/
def renderTable (t : TableInfo) : Option String :=
  (keepName t.name).map fun n => n ++ " (" ++ usedTableType t ++ ")"

end Tools

/-- An incoming chat message: a loosely-typed mapping read with
`msg.get('role')` / `msg.get('content', ...)`; a missing key is `none`. -/
structure Msg where
  role : Option String
  content : Option String
  deriving Repr, DecidableEq

/-- A message in LangChain format, produced by
`format_messages_for_langchain`. -/
structure FMsg where
  role : String
  content : String
  deriving Repr, DecidableEq

/-- One choice of the fixed response envelope built by
`databricks_assistant.py` lines 219-239 and 253-273. -/
structure Choice where
  role : String
  content : String
  index : Nat
  finish_reason : String
  deriving Repr, DecidableEq

/-- The `usage` block of the envelope. -/
structure Usage where
  prompt_tokens : Nat
  completion_tokens : Nat
  total_tokens : Nat
  deriving Repr, DecidableEq

/-- The fixed chat-completion response envelope. -/
structure Envelope where
  choices : List Choice
  usage : Usage
  model : String
  id : String
  object : String
  created : Nat
  deriving Repr, DecidableEq

/-- The simpler choice shape (role and content only) returned by
`agent.py`'s `databricks_agent`. -/
structure SimpleChoice where
  role : String
  content : String
  deriving Repr, DecidableEq

/-- The `{'response': {'choices': [...]}}` shape returned by
`agent.py`'s `databricks_agent`. -/
structure AgentPyResult where
  response : List SimpleChoice
  deriving Repr, DecidableEq

namespace AgentPy

/-- `format_messages_for_langchain` (`agent.py` lines 32-50): drop
`system` messages, keep `assistant` messages, map everything else
(`user`, a missing role defaulting to `'user'`, or any unknown role)
to `human`, preserving order and `content` (a missing content
defaults to `''`). -/
def format_messages_for_langchain : List Msg → List FMsg
  | [] => []
  | msg :: rest =>
    let role := msg.role.getD "user"
    let content := msg.content.getD ""
    if role = "system" then
      format_messages_for_langchain rest
    else if role = "assistant" then
      { role := "assistant", content := content } :: format_messages_for_langchain rest
    else
      { role := "human", content := content } :: format_messages_for_langchain rest

/-- `databricks_agent` from `agent.py` lines 53-136.  The fallible
block `agent_executor.invoke({'messages': ..., 'input': ...})`
followed by `result.get('output')` is the `invoke` parameter (an
exception is `Except.error str(e)`; the returned mapping's optional
`output` key is the `Option String`).  When no `user`-role message is
present the static prompt-for-input response is returned and `invoke`
is never consulted. -/
def databricks_agent (invoke : List FMsg → String → Except String (Option String))
    (messages : List Msg) : AgentPyResult :=
  let formatted_messages := format_messages_for_langchain messages
  let user_messages := messages.filter fun msg => msg.role == some "user"
  match user_messages.getLast? with
  | none =>
    { response := [{ role := "assistant", content := "Please provide a question or request." }] }
  | some last =>
    let last_user_message := last.content.getD ""
    match invoke formatted_messages last_user_message with
    | Except.ok result =>
      { response := [{ role := "assistant",
                       content := result.getD "I encountered an error processing your request." }] }
    | Except.error e =>
      { response := [{ role := "assistant", content := "I encountered an error: " ++ e }] }

/-- The mapping on one kept message that the spec describes: `system`
is removed, `assistant` keeps its role, every other (or missing) role
becomes `human`; content defaults to `''`.  Used to state the
refinement of `format_messages_for_langchain` as a `filterMap`. -/
def fmtSpec (m : Msg) : Option FMsg :=
  let role := m.role.getD "user"
  if role = "system" then none
  else if role = "assistant" then some { role := "assistant", content := m.content.getD "" }
  else some { role := "human", content := m.content.getD "" }

end AgentPy

namespace Assistant

/-- The user-query extraction of `databricks_assistant.py` lines
173-182: the content of the last `user`-role message (defaulting to
`''` when the content key is missing), or the literal
`'No user message'` when no `user`-role message exists. -/
def extract_user_query (messages : List Msg) : String :=
  let user_messages := messages.filter fun msg => msg.role == some "user"
  match user_messages.getLast? with
  | some last => last.content.getD ""
  | none => "No user message"

/-- `databricks_agent` from `databricks_assistant.py` lines 170-273.
The fallible `try` block (LLM construction, agent assembly,
`agent_executor.invoke({'input': user_query})` and
`result.get('output')`) is the `invoke` parameter.  Note that the
query extraction happens before the `try`, and that when no
`user`-role message exists the executor is still invoked, with the
substitute query `'No user message'`. -/
def databricks_agent (invoke : String → Except String (Option String))
    (messages : List Msg) : Envelope :=
  let user_query := extract_user_query messages
  match invoke user_query with
  | Except.ok result =>
    { choices := [{ role := "assistant",
                    content := result.getD "I could not generate a response.",
                    index := 0, finish_reason := "stop" }],
      usage := { prompt_tokens := 0, completion_tokens := 0, total_tokens := 0 },
      model := "databricks-claude-sonnet-4",
      id := "langchain-agent-response",
      object := "chat.completion",
      created := 0 }
  | Except.error e =>
    { choices := [{ role := "assistant",
                    content := "I encountered an error: " ++ e,
                    index := 0, finish_reason := "stop" }],
      usage := { prompt_tokens := 0, completion_tokens := 0, total_tokens := 0 },
      model := "databricks-claude-sonnet-4",
      id := "error-response",
      object := "chat.completion",
      created := 0 }

end Assistant

/-- The OpenAI-compatible client constructed by
`model_serving.py`'s `get_client`: an api key and a base URL. -/
structure OpenAIClient where
  api_key : String
  base_url : String
  deriving Repr, DecidableEq

/-- What the `WorkspaceClient()` attempt inside `get_client`'s `try`
block yields when the construction itself succeeds: the configured
host, the optional static token (`w.config.token`), and the fallible
`w.config.authenticate()` call returning an optional
`access_token` entry. -/
structure WsAttempt where
  host : String
  token : Option String
  authenticate : Except String (Option String)
  deriving Repr

/-- One choice of the vendor chat-completion response read by
`model_serving_endpoint` (`response.choices[0]`). -/
structure RespChoice where
  role : String
  content : Option String
  index : Nat
  finish_reason : Option String
  deriving Repr, DecidableEq

/-- The vendor chat-completion response fields read by
`model_serving_endpoint`. -/
structure ChatResponse where
  choices : List RespChoice
  usage : Option Usage
  model : String
  id : String
  created : Nat
  deriving Repr, DecidableEq

/-- The reshaped envelope built by `model_serving_endpoint`
(`model_serving.py` lines 94-114); `content` and `finish_reason` are
passed through and may be null. -/
structure ServeEnvelope where
  choices : List RespChoice
  usage : Usage
  model : String
  id : String
  object : String
  created : Nat
  deriving Repr, DecidableEq

namespace ModelServing

/-- `get_client` from `model_serving.py` lines 18-68.  `sdk` models the
`WorkspaceClient()` construction inside the `try` (an exception there
falls through to the `except` branch).  A static token, when truthy,
is used directly; otherwise `w.config.authenticate()` runs still
inside the `try`, so its exception also falls through to the
`except` branch, and its missing `access_token` key defaults to
`'no-token-required'`.  The `except` branch reads `DATABRICKS_TOKEN`
and `DATABRICKS_HOST` from the environment and raises `ValueError`
when either is missing.  Both success paths strip a leading
`https://` from the host and rebuild the base URL as
`https://{host}/serving-endpoints`. -/
def get_client (sdk : Except String WsAttempt) (env : Env) : Except String OpenAIClient :=
  let fallback : Except String OpenAIClient :=
    if !truthy env.token then
      Except.error "Unable to authenticate with Databricks"
    else if !truthy env.host then
      Except.error "Unable to determine Databricks host"
    else
      Except.ok { api_key := env.token.getD "",
                  base_url := "https://" ++ stripHttps (env.host.getD "") ++ "/serving-endpoints" }
  match sdk with
  | Except.error _ => fallback
  | Except.ok w =>
    if truthy w.token then
      Except.ok { api_key := w.token.getD "",
                  base_url := "https://" ++ stripHttps w.host ++ "/serving-endpoints" }
    else
      match w.authenticate with
      | Except.error _ => fallback
      | Except.ok tok =>
        Except.ok { api_key := tok.getD "no-token-required",
                    base_url := "https://" ++ stripHttps w.host ++ "/serving-endpoints" }

/-- `model_serving_endpoint` from `model_serving.py` lines 71-128.
`clientRes` is the `get_client()` call and `create` the single
`client.chat.completions.create(model=endpoint_name, messages=...,
max_tokens=1000, temperature=0.1)` call; neither is wrapped in a
`try`, so either exception propagates out unchanged.  The second
component of the result counts how many `create` calls the execution
path performs.  Accessing `response.choices[0]` on an empty choice
list raises an `IndexError`, which also propagates. -/
def model_serving_endpoint (clientRes : Except String OpenAIClient)
    (create : OpenAIClient → String → List Msg → Except String ChatResponse)
    (endpoint_name : String) (messages : List Msg) :
    Except String ServeEnvelope × Nat :=
  match clientRes with
  | Except.error e => (Except.error e, 0)
  | Except.ok client =>
    match create client endpoint_name messages with
    | Except.error e => (Except.error e, 1)
    | Except.ok response =>
      match response.choices with
      | [] => (Except.error "IndexError: list index out of range", 1)
      | c :: _ =>
        (Except.ok
          { choices := [{ role := c.role, content := c.content,
                          index := c.index, finish_reason := c.finish_reason }],
            usage := response.usage.getD
              { prompt_tokens := 0, completion_tokens := 0, total_tokens := 0 },
            model := response.model,
            id := response.id,
            object := "chat.completion",
            created := response.created }, 1)

end ModelServing

/-! ## Helper lemmas -/

/-- `"Error "` stays a leading segment under right-append. -/
theorem startsWithErr_append (a b : String) (h : startsWithErr a) : startsWithErr (a ++ b) := by
  obtain ⟨rest, hr⟩ := h
  exact ⟨rest ++ b, by rw [hr, String.append_assoc]⟩

/-- A string of the form `p ++ m` contains `m`. -/
theorem containsStr_suffix (p m : String) : containsStr (p ++ m) m :=
  ⟨p, "", (String.append_empty (p ++ m)).symm⟩

/-- The first character of an append is the first character of the
left part, when the left part is non-empty. -/
theorem headData_append (a b : String) (c0 : Char) (h : a.data.head? = some c0) :
    (a ++ b).data.head? = some c0 := by
  rw [String.data_append]
  cases ha : a.data with
  | nil => rw [ha] at h; cases h
  | cons x xs =>
    rw [ha] at h
    simp only [List.head?_cons, Option.some.injEq] at h
    subst h
    rfl

/-- A string whose first character is not `'E'` does not start with
`"Error "`. -/
theorem not_startsWithErr (sout : String) (h : sout.data.head? ≠ some 'E') :
    ¬ startsWithErr sout := by
  rintro ⟨rest, hr⟩
  apply h
  rw [hr, String.data_append]
  rfl

/-- A string whose first character is `c0 ≠ 'E'` does not start with
`"Error "`. -/
theorem notErr_of_head (sout : String) (c0 : Char) (h : sout.data.head? = some c0)
    (hne : c0 ≠ 'E') : ¬ startsWithErr sout := by
  apply not_startsWithErr
  rw [h]
  intro hc
  injection hc with hc
  exact hne hc

/-- Appending to a non-empty string yields a non-empty string. -/
theorem strAppend_ne_empty (a b : String) (ha : a.data ≠ []) : a ++ b ≠ "" := by
  intro h
  have hd := congrArg String.data h
  rw [String.data_append, show ("" : String).data = [] from rfl] at hd
  exact ha (List.append_eq_nil.mp hd).1

/-- A list is a starts-with match of itself followed by anything. -/
theorem listIsPre_append (l t : List Char) : listIsPre l (l ++ t) = true := by
  induction l with
  | nil => rfl
  | cons a as ih => simp [listIsPre, ih]

/-- Stripping the scheme from `"https://" ++ s` yields exactly `s`. -/
theorem stripHttps_append (s : String) : stripHttps ("https://" ++ s) = s := by
  have hpre : pyStartsWith ("https://" ++ s) "https://" = true := by
    unfold pyStartsWith
    rw [String.data_append]
    exact listIsPre_append _ _
  unfold stripHttps
  rw [hpre]
  simp only [if_true]
  unfold pyDrop
  rw [String.data_append,
    show (8 : Nat) = ("https://" : String).data.length from rfl, List.drop_left]

/-- `keepName` drops a null or empty name. -/
theorem keepName_eq_none {o : Option String} (h : o = none ∨ o = some "") :
    keepName o = none := by
  rcases h with h | h <;> subst h <;> rfl

/-- `keepName` only keeps a non-empty present name, unchanged. -/
theorem keepName_some {o : Option String} {n : String} (h : keepName o = some n) :
    o = some n ∧ n ≠ "" := by
  cases o with
  | none => cases h
  | some m =>
    by_cases hm : m = ""
    · subst hm
      simp [keepName] at h
    · rw [show keepName (some m) = some m from by simp [keepName, hm]] at h
      injection h with h
      subst h
      exact ⟨rfl, hm⟩

/-- A truthy string is a non-empty `some`. -/
theorem truthy_some_ne {s : String} (h : s ≠ "") : truthy (some s) = true := by
  simp [truthy, h]

/-- The name-comprehension yields `[]` when every entry's name is null
or empty. -/
theorem filterMapKeep_all_bad {α : Type} (name : α → Option String) (l : List α)
    (h : ∀ x ∈ l, name x = none ∨ name x = some "") :
    l.filterMap (fun x => keepName (name x)) = [] := by
  induction l with
  | nil => rfl
  | cons a as ih =>
    rw [List.filterMap_cons, keepName_eq_none (h a (List.mem_cons_self a as))]
    exact ih fun x hx => h x (List.mem_cons_of_mem a hx)

/-- Every name kept by the comprehension is non-empty. -/
theorem filterMapKeep_ne_empty {α : Type} (name : α → Option String) (l : List α)
    (n : String) (hn : n ∈ l.filterMap (fun x => keepName (name x))) : n ≠ "" := by
  rw [List.mem_filterMap] at hn
  obtain ⟨a, _, ha⟩ := hn
  exact (keepName_some ha).2

/-- An entry with a null or empty name is ignored by the comprehension. -/
theorem filterMapKeep_cons_bad {α : Type} (name : α → Option String) (x : α) (l : List α)
    (h : name x = none ∨ name x = some "") :
    (x :: l).filterMap (fun a => keepName (name a)) =
      l.filterMap (fun a => keepName (name a)) := by
  rw [List.filterMap_cons, keepName_eq_none h]

/-- The `table_info` loop is the `filterMap` of the per-table
rendering. -/
theorem tableInfoLoop_eq_filterMap (ts : List TableInfo) :
    Tools.tableInfoLoop ts = ts.filterMap Tools.renderTable := by
  induction ts with
  | nil => rfl
  | cons t rest ih =>
    cases hn : t.name with
    | none =>
      simp [Tools.tableInfoLoop, Tools.renderTable, keepName, hn, List.filterMap_cons, ih]
    | some n =>
      by_cases he : n = ""
      · subst he
        simp [Tools.tableInfoLoop, Tools.renderTable, keepName, hn, List.filterMap_cons, ih]
      · simp [Tools.tableInfoLoop, Tools.renderTable, Tools.usedTableType, keepName, hn, he,
          List.filterMap_cons, ih]

/-- The `table_info` loop yields `[]` when every table's name is null
or empty. -/
theorem tableInfoLoop_eq_nil (ts : List TableInfo)
    (h : ∀ t ∈ ts, t.name = none ∨ t.name = some "") :
    Tools.tableInfoLoop ts = [] := by
  rw [tableInfoLoop_eq_filterMap]
  induction ts with
  | nil => rfl
  | cons t rest ih =>
    rw [List.filterMap_cons]
    have hr : Tools.renderTable t = none := by
      unfold Tools.renderTable
      rw [keepName_eq_none (h t (List.mem_cons_self t rest))]
      rfl
    rw [hr]
    exact ih fun x hx => h x (List.mem_cons_of_mem t hx)

/-- Every rendered table entry has the `name (TYPE)` shape with a
non-empty name. -/
theorem tableInfoLoop_mem_shape (ts : List TableInfo) (str : String)
    (hs : str ∈ Tools.tableInfoLoop ts) :
    ∃ n ty, str = n ++ " (" ++ ty ++ ")" ∧ n ≠ "" := by
  rw [tableInfoLoop_eq_filterMap, List.mem_filterMap] at hs
  obtain ⟨t, _, ht⟩ := hs
  unfold Tools.renderTable at ht
  cases hk : keepName t.name with
  | none => rw [hk] at ht; cases ht
  | some n =>
    rw [hk] at ht
    simp only [Option.map_some', Option.some.injEq] at ht
    exact ⟨n, Tools.usedTableType t, ht.symm, (keepName_some hk).2⟩

/-! ## Claim theorems -/

/-- Claim C1: for every catalog tool function (`list_catalogs`,
`list_schemas`, `list_tables`, `list_volumes`) and every exception
raised by the workspace-client call inside it, the function returns a
string that starts with `"Error "` and contains the message of the
original exception.  No exception propagates out: each embedded tool
function is total, returning a `String` on every input, the
`Except.error` case included. -/
theorem catalog_tools_error_string (e q c s : String) :
    (startsWithErr (Tools.list_catalogs (Except.error e) q) ∧
      containsStr (Tools.list_catalogs (Except.error e) q) e) ∧
    (startsWithErr (Tools.list_schemas (Except.error e) c) ∧
      containsStr (Tools.list_schemas (Except.error e) c) e) ∧
    (startsWithErr (Tools.list_tables (Except.error e) c s) ∧
      containsStr (Tools.list_tables (Except.error e) c s) e) ∧
    (startsWithErr (Tools.list_volumes (Except.error e) c s) ∧
      containsStr (Tools.list_volumes (Except.error e) c s) e) := by
  refine ⟨⟨?_, ?_⟩, ⟨?_, ?_⟩, ⟨?_, ?_⟩, ⟨?_, ?_⟩⟩
  · exact startsWithErr_append _ e ⟨"listing catalogs: ", by decide⟩
  · exact containsStr_suffix _ e
  · exact startsWithErr_append _ e
      (startsWithErr_append _ "\": "
        (startsWithErr_append _ c ⟨"listing schemas in catalog \"", by decide⟩))
  · exact containsStr_suffix _ e
  · exact startsWithErr_append _ e
      (startsWithErr_append _ ": "
        (startsWithErr_append _ s
          (startsWithErr_append _ "."
            (startsWithErr_append _ c ⟨"listing tables in ", by decide⟩))))
  · exact containsStr_suffix _ e
  · exact startsWithErr_append _ e
      (startsWithErr_append _ ": "
        (startsWithErr_append _ s
          (startsWithErr_append _ "."
            (startsWithErr_append _ c ⟨"listing volumes in ", by decide⟩))))
  · exact containsStr_suffix _ e

/-- Claim C5: for every catalog/schema/table/volume list call where
the remote call succeeds with an empty result set, the tool function
returns the specific "No … found" sentence for that level, and that
sentence is not an error string (it does not start with `"Error "`). -/
theorem catalog_tools_empty_results (q c s : String) :
    (Tools.list_catalogs (Except.ok []) q = "No catalogs found in the workspace." ∧
      ¬ startsWithErr (Tools.list_catalogs (Except.ok []) q)) ∧
    (Tools.list_schemas (Except.ok []) c =
        "No schemas found in catalog \"" ++ c ++ "\"." ∧
      ¬ startsWithErr (Tools.list_schemas (Except.ok []) c)) ∧
    (Tools.list_tables (Except.ok []) c s =
        "No tables found in " ++ c ++ "." ++ s ++ "." ∧
      ¬ startsWithErr (Tools.list_tables (Except.ok []) c s)) ∧
    (Tools.list_volumes (Except.ok []) c s =
        "No volumes found in " ++ c ++ "." ++ s ++ "." ∧
      ¬ startsWithErr (Tools.list_volumes (Except.ok []) c s)) := by
  refine ⟨⟨rfl, ?_⟩, ⟨rfl, ?_⟩, ⟨rfl, ?_⟩, ⟨rfl, ?_⟩⟩
  · exact notErr_of_head _ 'N' rfl (by decide)
  · exact notErr_of_head _ 'N'
      (headData_append _ _ _ (headData_append _ _ _ rfl)) (by decide)
  · exact notErr_of_head _ 'N'
      (headData_append _ _ _
        (headData_append _ _ _ (headData_append _ _ _ (headData_append _ _ _ rfl))))
      (by decide)
  · exact notErr_of_head _ 'N'
      (headData_append _ _ _
        (headData_append _ _ _ (headData_append _ _ _ (headData_append _ _ _ rfl))))
      (by decide)

/-- Claim C6: in a successful `list_tables` call, each table with a
non-empty name is rendered as `name ++ " (" ++ TYPE ++ ")"` — the
accumulation loop equals the `filterMap` of the per-table rendering —
and the `TYPE` used is the table's `table_type` metadata, defaulting
to `"TABLE"` exactly when that metadata is absent; a non-empty
rendering is joined into the "Tables in catalog.schema: …" sentence. -/
theorem list_tables_rendering (c s : String) (ts : List TableInfo) :
    Tools.tableInfoLoop ts = ts.filterMap Tools.renderTable ∧
    (∀ t : TableInfo, t.table_type = none → Tools.usedTableType t = "TABLE") ∧
    (∀ (t : TableInfo) (ty : String), t.table_type = some ty → Tools.usedTableType t = ty) ∧
    (Tools.tableInfoLoop ts ≠ [] →
      Tools.list_tables (Except.ok ts) c s =
        "Tables in " ++ c ++ "." ++ s ++ ": " ++ commaJoin (ts.filterMap Tools.renderTable)) := by
  refine ⟨tableInfoLoop_eq_filterMap ts, ?_, ?_, ?_⟩
  · intro t ht
    unfold Tools.usedTableType
    rw [ht]
    rfl
  · intro t ty ht
    unfold Tools.usedTableType
    rw [ht]
    rfl
  · intro hne
    have hfalse : (Tools.tableInfoLoop ts).isEmpty = false := by
      cases hloop : Tools.tableInfoLoop ts with
      | nil => exact absurd hloop hne
      | cons a as => rfl
    show (match (Except.ok ts : Except String (List TableInfo)) with
      | Except.ok tables =>
        if !(Tools.tableInfoLoop tables).isEmpty then
          "Tables in " ++ c ++ "." ++ s ++ ": " ++ commaJoin (Tools.tableInfoLoop tables)
        else
          "No tables found in " ++ c ++ "." ++ s ++ "."
      | Except.error e =>
        "Error listing tables in " ++ c ++ "." ++ s ++ ": " ++ e) = _
    rw [show (match (Except.ok ts : Except String (List TableInfo)) with
      | Except.ok tables =>
        if !(Tools.tableInfoLoop tables).isEmpty then
          "Tables in " ++ c ++ "." ++ s ++ ": " ++ commaJoin (Tools.tableInfoLoop tables)
        else
          "No tables found in " ++ c ++ "." ++ s ++ "."
      | Except.error e =>
        "Error listing tables in " ++ c ++ "." ++ s ++ ": " ++ e) =
      if !(Tools.tableInfoLoop ts).isEmpty then
        "Tables in " ++ c ++ "." ++ s ++ ": " ++ commaJoin (Tools.tableInfoLoop ts)
      else
        "No tables found in " ++ c ++ "." ++ s ++ "." from rfl]
    rw [hfalse, tableInfoLoop_eq_filterMap]
    rfl

/-- Witness for C6 at a concrete table list: one table with explicit
type metadata, one with the metadata absent. -/
theorem list_tables_rendering_witness :
    Tools.tableInfoLoop [⟨some "t1", some "VIEW"⟩, ⟨some "t2", none⟩] ≠ [] ∧
    Tools.list_tables
        (Except.ok [⟨some "t1", some "VIEW"⟩, ⟨some "t2", none⟩]) "main" "sales" =
      "Tables in main.sales: t1 (VIEW), t2 (TABLE)" := by
  refine ⟨by decide, ?_⟩
  rw [(list_tables_rendering "main" "sales"
    [⟨some "t1", some "VIEW"⟩, ⟨some "t2", none⟩]).2.2.2 (by decide)]
  decide

/-- Claim C9: the catalog tool functions ignore entries whose name is
null or empty: prepending such an entry leaves the rendered name list
unchanged, a result in which every entry has a null or empty name
yields the same "No … found" sentence as an empty result, and no name
in the joined output is empty. -/
theorem catalog_tools_ignore_empty_names (q c s : String)
    (lc : List CatalogInfo) (ls : List SchemaInfo)
    (lt : List TableInfo) (lv : List VolumeInfo) :
    ((∀ x ∈ lc, x.name = none ∨ x.name = some "") →
      Tools.list_catalogs (Except.ok lc) q = "No catalogs found in the workspace.") ∧
    (∀ n ∈ Tools.catalog_names lc, n ≠ "") ∧
    (∀ x : CatalogInfo, (x.name = none ∨ x.name = some "") →
      Tools.catalog_names (x :: lc) = Tools.catalog_names lc) ∧
    ((∀ x ∈ ls, x.name = none ∨ x.name = some "") →
      Tools.list_schemas (Except.ok ls) c =
        "No schemas found in catalog \"" ++ c ++ "\".") ∧
    (∀ n ∈ Tools.schema_names ls, n ≠ "") ∧
    (∀ x : SchemaInfo, (x.name = none ∨ x.name = some "") →
      Tools.schema_names (x :: ls) = Tools.schema_names ls) ∧
    ((∀ t ∈ lt, t.name = none ∨ t.name = some "") →
      Tools.list_tables (Except.ok lt) c s =
        "No tables found in " ++ c ++ "." ++ s ++ ".") ∧
    (∀ str ∈ Tools.tableInfoLoop lt, ∃ n ty, str = n ++ " (" ++ ty ++ ")" ∧ n ≠ "") ∧
    (∀ x : TableInfo, (x.name = none ∨ x.name = some "") →
      Tools.tableInfoLoop (x :: lt) = Tools.tableInfoLoop lt) ∧
    ((∀ x ∈ lv, x.name = none ∨ x.name = some "") →
      Tools.list_volumes (Except.ok lv) c s =
        "No volumes found in " ++ c ++ "." ++ s ++ ".") ∧
    (∀ n ∈ Tools.volume_names lv, n ≠ "") ∧
    (∀ x : VolumeInfo, (x.name = none ∨ x.name = some "") →
      Tools.volume_names (x :: lv) = Tools.volume_names lv) := by
  refine ⟨?_, ?_, ?_, ?_, ?_, ?_, ?_, ?_, ?_, ?_, ?_, ?_⟩
  · intro h
    have hnil : Tools.catalog_names lc = [] := filterMapKeep_all_bad _ _ h
    simp [Tools.list_catalogs, hnil]
  · exact fun n hn => filterMapKeep_ne_empty _ _ n hn
  · exact fun x hx => filterMapKeep_cons_bad _ x lc hx
  · intro h
    have hnil : Tools.schema_names ls = [] := filterMapKeep_all_bad _ _ h
    simp [Tools.list_schemas, hnil]
  · exact fun n hn => filterMapKeep_ne_empty _ _ n hn
  · exact fun x hx => filterMapKeep_cons_bad _ x ls hx
  · intro h
    have hnil : Tools.tableInfoLoop lt = [] := tableInfoLoop_eq_nil lt h
    simp [Tools.list_tables, hnil]
  · exact fun str hs => tableInfoLoop_mem_shape lt str hs
  · intro x hx
    rw [tableInfoLoop_eq_filterMap, tableInfoLoop_eq_filterMap, List.filterMap_cons,
      show Tools.renderTable x = none from by
        unfold Tools.renderTable
        rw [keepName_eq_none hx]
        rfl]
  · intro h
    have hnil : Tools.volume_names lv = [] := filterMapKeep_all_bad _ _ h
    simp [Tools.list_volumes, hnil]
  · exact fun n hn => filterMapKeep_ne_empty _ _ n hn
  · exact fun x hx => filterMapKeep_cons_bad _ x lv hx

/-- Witness for C9: a remote result whose entries all have null or
empty names produces the "No catalogs found" sentence. -/
theorem catalog_tools_ignore_empty_names_witness :
    Tools.list_catalogs (Except.ok [⟨none⟩, ⟨some ""⟩]) "" =
      "No catalogs found in the workspace." :=
  (catalog_tools_ignore_empty_names "" "c" "s" [⟨none⟩, ⟨some ""⟩] [] [] []).1 (by decide)

/-- Witness for C5 (its statement carries negations): the concrete
empty-result sentence for catalogs. -/
theorem catalog_tools_empty_results_witness :
    Tools.list_catalogs (Except.ok []) "" = "No catalogs found in the workspace." :=
  ((catalog_tools_empty_results "" "c" "s").1).1

/-- Claim C2 (amended): the `auth.py` `get_workspace_client` follows
the claimed three-branch order — OAuth pair present (non-empty) → no
explicit host/token; else host and token present (non-empty) →
explicit host (scheme stripped) + token; else the SDK default chain —
and, being a total function into `ClientConfig`, never raises locally.
The duplicate `get_workspace_client` in `databricks_assistant.py`
instead checks only host+token and raises a `ValueError` when the
token (checked first) or the host is missing, with no OAuth or
default-chain branch. -/
theorem get_workspace_client_branches (env : Env) :
    (truthy env.client_id = true → truthy env.client_secret = true →
      Auth.get_workspace_client env = ClientConfig.default) ∧
    (¬(truthy env.client_id = true ∧ truthy env.client_secret = true) →
      ∀ h t, env.host = some h → env.token = some t → h ≠ "" → t ≠ "" →
        Auth.get_workspace_client env = ClientConfig.hostToken (stripHttps h) t) ∧
    (¬(truthy env.client_id = true ∧ truthy env.client_secret = true) →
      ¬(truthy env.token = true ∧ truthy env.host = true) →
      Auth.get_workspace_client env = ClientConfig.default) ∧
    (truthy env.token = false →
      Assistant.get_workspace_client env =
        Except.error "DATABRICKS_TOKEN environment variable is required") ∧
    (truthy env.token = true → truthy env.host = false →
      Assistant.get_workspace_client env =
        Except.error "DATABRICKS_HOST environment variable is required") ∧
    (∀ h t, env.host = some h → env.token = some t → h ≠ "" → t ≠ "" →
      Assistant.get_workspace_client env =
        Except.ok (ClientConfig.hostToken (stripHttps h) t)) := by
  refine ⟨?_, ?_, ?_, ?_, ?_, ?_⟩
  · intro h1 h2
    simp [Auth.get_workspace_client, h1, h2]
  · intro hno h t hh ht hhne htne
    have hand : (truthy env.client_id && truthy env.client_secret) = false := by
      cases hc1 : truthy env.client_id <;> cases hc2 : truthy env.client_secret <;> simp_all
    simp [Auth.get_workspace_client, hand, hh, ht, truthy_some_ne hhne, truthy_some_ne htne]
  · intro hno1 hno2
    have hand1 : (truthy env.client_id && truthy env.client_secret) = false := by
      cases hc1 : truthy env.client_id <;> cases hc2 : truthy env.client_secret <;> simp_all
    have hand2 : (truthy env.token && truthy env.host) = false := by
      cases hc1 : truthy env.token <;> cases hc2 : truthy env.host <;> simp_all
    simp [Auth.get_workspace_client, hand1, hand2]
  · intro h1
    simp [Assistant.get_workspace_client, h1]
  · intro h1 h2
    simp [Assistant.get_workspace_client, h1, h2]
  · intro h t hh ht hhne htne
    simp [Assistant.get_workspace_client, hh, ht, truthy_some_ne hhne, truthy_some_ne htne]

/-- Witness for C2 at a concrete environment: host+token set, no
OAuth pair, in both variants. -/
theorem get_workspace_client_branches_witness :
    Auth.get_workspace_client ⟨none, none, some "https://x.db.com", some "tok"⟩ =
      ClientConfig.hostToken "x.db.com" "tok" ∧
    Assistant.get_workspace_client ⟨none, none, some "https://x.db.com", some "tok"⟩ =
      Except.ok (ClientConfig.hostToken "x.db.com" "tok") := by
  constructor
  · rw [(get_workspace_client_branches ⟨none, none, some "https://x.db.com", some "tok"⟩).2.1
      (by decide) "https://x.db.com" "tok" rfl rfl (by decide) (by decide)]
    decide
  · rw [(get_workspace_client_branches ⟨none, none, some "https://x.db.com", some "tok"⟩).2.2.2.2.2
      "https://x.db.com" "tok" rfl rfl (by decide) (by decide)]
    rfl

/-- Counterexample for C2 as stated: with both
`DATABRICKS_CLIENT_ID` and `DATABRICKS_CLIENT_SECRET` set and nothing
else, the claim requires the OAuth branch (client constructed with no
explicit arguments) and no local raise, but the
`databricks_assistant.py` variant of `get_workspace_client` — one of
the claim's cited code locations — raises
`ValueError('DATABRICKS_TOKEN environment variable is required')`. -/
theorem get_workspace_client_oauth_counterexample :
    Assistant.get_workspace_client ⟨some "client-id", some "client-secret", none, none⟩ =
      Except.error "DATABRICKS_TOKEN environment variable is required" ∧
    Assistant.get_workspace_client ⟨some "client-id", some "client-secret", none, none⟩ ≠
      Except.ok ClientConfig.default :=
  ⟨rfl, fun h => Except.noConfusion h⟩

/-- Claim C7: a host starting with `"https://"` is stripped to the
suffix after the first 8 code points, exactly once; a host not
starting with `"https://"` is passed unchanged; and in the host+token
branch of credential resolution the stripped host is what reaches the
client. -/
theorem https_host_stripping (s h t : String) (env : Env) :
    stripHttps ("https://" ++ s) = s ∧
    (pyStartsWith h "https://" = true → stripHttps h = pyDrop h 8) ∧
    (pyStartsWith h "https://" = false → stripHttps h = h) ∧
    (¬(truthy env.client_id = true ∧ truthy env.client_secret = true) →
      env.host = some ("https://" ++ s) → env.token = some t → t ≠ "" →
      Auth.get_workspace_client env = ClientConfig.hostToken s t) := by
  refine ⟨stripHttps_append s, ?_, ?_, ?_⟩
  · intro hp
    unfold stripHttps
    rw [hp]
    simp
  · intro hp
    unfold stripHttps
    rw [hp]
    simp
  · intro hno hh ht htne
    have hand : (truthy env.client_id && truthy env.client_secret) = false := by
      cases hc1 : truthy env.client_id <;> cases hc2 : truthy env.client_secret <;> simp_all
    have hostne : ("https://" ++ s) ≠ "" := strAppend_ne_empty _ _ (by decide)
    simp [Auth.get_workspace_client, hand, hh, ht, truthy_some_ne hostne,
      truthy_some_ne htne, stripHttps_append]

/-- Witness for C7: the spec's scenario host, and a doubled scheme
being stripped exactly once. -/
theorem https_host_stripping_witness :
    Auth.get_workspace_client
        ⟨none, none, some "https://foo.cloud.databricks.com", some "tok"⟩ =
      ClientConfig.hostToken "foo.cloud.databricks.com" "tok" ∧
    stripHttps "https://https://a" = "https://a" := by
  constructor
  · exact (https_host_stripping "foo.cloud.databricks.com" "" "tok"
      ⟨none, none, some "https://foo.cloud.databricks.com", some "tok"⟩).2.2.2
      (by decide) rfl rfl (by decide)
  · exact (https_host_stripping "https://a" "" "" ⟨none, none, none, none⟩).1

/-- Claim C3 (amended): for every input message list with no
`user`-role message, the `agent.py` variant of `databricks_agent`
returns the static prompt-for-input response without consulting the
executor (its result is the same for every executor behaviour `invA`),
while the `databricks_assistant.py` variant instead substitutes
`'No user message'` as the query and still invokes the executor — it
behaves exactly as if asked `'No user message'`. -/
theorem agent_missing_user_static
    (invA : List FMsg → String → Except String (Option String))
    (invB : String → Except String (Option String)) (messages : List Msg)
    (h : ∀ m ∈ messages, m.role ≠ some "user") :
    AgentPy.databricks_agent invA messages =
      { response := [{ role := "assistant",
                       content := "Please provide a question or request." }] } ∧
    Assistant.extract_user_query messages = "No user message" ∧
    Assistant.databricks_agent invB messages =
      Assistant.databricks_agent invB
        [{ role := some "user", content := some "No user message" }] := by
  have hfil : messages.filter (fun msg => msg.role == some "user") = [] := by
    rw [List.filter_eq_nil_iff]
    intro a ha hc
    exact h a ha (beq_iff_eq.mp hc)
  have hquery : Assistant.extract_user_query messages = "No user message" := by
    simp [Assistant.extract_user_query, hfil]
  refine ⟨?_, hquery, ?_⟩
  · simp [AgentPy.databricks_agent, hfil]
  · simp [Assistant.databricks_agent, Assistant.extract_user_query, hquery, hfil]

/-- Witness for C3's amended theorem at the empty message list. -/
theorem agent_missing_user_static_witness :
    AgentPy.databricks_agent (fun _ _ => Except.ok (some "ignored")) [] =
      { response := [{ role := "assistant",
                       content := "Please provide a question or request." }] } :=
  (agent_missing_user_static (fun _ _ => Except.ok (some "ignored"))
    (fun _ => Except.ok none) [] (by intro m hm; cases hm)).1

/-- Counterexample for C3 as stated: at `messages = []` the
`databricks_assistant.py` variant does not return a static
prompt-for-input response — it invokes the executor with the
substitute query `'No user message'`, and the executor's answer
surfaces verbatim as the returned content. -/
theorem agent_missing_user_counterexample :
    (Assistant.databricks_agent (fun q => Except.ok (some ("ECHO " ++ q))) []).choices =
      [{ role := "assistant", content := "ECHO No user message", index := 0,
         finish_reason := "stop" }] := by
  decide

/-- Claim C4 (amended): for every input message list containing a
`user`-role message, `databricks_agent` (the `databricks_assistant.py`
variant) returns an envelope with exactly one choice whose role is
`assistant`, index `0` and `finish_reason` `"stop"`, and zeroed usage
fields, in both the success and the error branch; the content is a
non-empty error string in the error branch, and in the success branch
it is the executor's output passed through unchanged (with a fixed
non-empty default when the `output` key is missing) — non-empty
whenever that output is not itself the empty string. -/
theorem assistant_agent_envelope (invoke : String → Except String (Option String))
    (messages : List Msg) (hu : ∃ m ∈ messages, m.role = some "user") :
    (Assistant.databricks_agent invoke messages).usage = ⟨0, 0, 0⟩ ∧
    ∃ ch : Choice,
      (Assistant.databricks_agent invoke messages).choices = [ch] ∧
      ch.role = "assistant" ∧ ch.index = 0 ∧ ch.finish_reason = "stop" ∧
      ((∃ e, invoke (Assistant.extract_user_query messages) = Except.error e ∧
          ch.content = "I encountered an error: " ++ e ∧ ch.content ≠ "") ∨
        (∃ out, invoke (Assistant.extract_user_query messages) = Except.ok out ∧
          ch.content = out.getD "I could not generate a response." ∧
          (out ≠ some "" → ch.content ≠ ""))) := by
  cases hres : invoke (Assistant.extract_user_query messages) with
  | error e =>
    refine ⟨by simp [Assistant.databricks_agent, hres],
      ⟨{ role := "assistant", content := "I encountered an error: " ++ e,
         index := 0, finish_reason := "stop" },
        by simp [Assistant.databricks_agent, hres], rfl, rfl, rfl,
        Or.inl ⟨e, rfl, rfl, strAppend_ne_empty _ _ (by decide)⟩⟩⟩
  | ok out =>
    refine ⟨by simp [Assistant.databricks_agent, hres],
      ⟨{ role := "assistant", content := out.getD "I could not generate a response.",
         index := 0, finish_reason := "stop" },
        by simp [Assistant.databricks_agent, hres], rfl, rfl, rfl,
        Or.inr ⟨out, rfl, rfl, ?_⟩⟩⟩
    intro hne
    cases out with
    | none =>
      show ("I could not generate a response." : String) ≠ ""
      decide
    | some o =>
      have ho : o ≠ "" := fun h0 => hne (by rw [h0])
      exact ho

/-- Witness for C4's amended theorem at a concrete user message and a
successful executor run. -/
theorem assistant_agent_envelope_witness :
    (Assistant.databricks_agent (fun _ => Except.ok (some "hi"))
        [{ role := some "user", content := some "hello" }]).usage = ⟨0, 0, 0⟩ :=
  (assistant_agent_envelope (fun _ => Except.ok (some "hi"))
    [{ role := some "user", content := some "hello" }]
    ⟨{ role := some "user", content := some "hello" }, by decide, rfl⟩).1

/-- Counterexample for C4 as stated: with a user message present and
the executor returning an empty `output` string, the success branch
passes it through and `choices[0].message.content` is the empty string
(while `finish_reason` is still `"stop"`). -/
theorem assistant_agent_empty_content_counterexample :
    (Assistant.databricks_agent (fun _ => Except.ok (some ""))
        [{ role := some "user", content := some "hello" }]).choices =
      [{ role := "assistant", content := "", index := 0, finish_reason := "stop" }] := by
  decide

/-- Claim C10: `format_messages_for_langchain` removes every `system`
message, keeps every `assistant` message with role `assistant`, maps
every other message (role `user`, missing role, or unknown role) to
role `human`, and preserves the relative order and content of the
kept messages — it is exactly the `filterMap` of the per-message
mapping `fmtSpec`. -/
theorem format_messages_spec (messages : List Msg) :
    AgentPy.format_messages_for_langchain messages = messages.filterMap AgentPy.fmtSpec := by
  induction messages with
  | nil => rfl
  | cons m rest ih =>
    by_cases h1 : m.role.getD "user" = "system"
    · simp [AgentPy.format_messages_for_langchain, AgentPy.fmtSpec, List.filterMap_cons,
        h1, ih]
    · by_cases h2 : m.role.getD "user" = "assistant"
      · simp [AgentPy.format_messages_for_langchain, AgentPy.fmtSpec, List.filterMap_cons,
          h1, h2, ih]
      · simp [AgentPy.format_messages_for_langchain, AgentPy.fmtSpec, List.filterMap_cons,
          h1, h2, ih]

/-- Claim C8: the model-serving passthrough makes at most one
chat-completion attempt per invocation — exactly one when client
resolution succeeds, with no retry — and an exception from client
resolution or from the remote call propagates out unchanged (it is
never converted into an error envelope). -/
theorem model_serving_no_retry (clientRes : Except String OpenAIClient)
    (create : OpenAIClient → String → List Msg → Except String ChatResponse)
    (endpoint_name : String) (messages : List Msg) :
    (ModelServing.model_serving_endpoint clientRes create endpoint_name messages).2 ≤ 1 ∧
    (∀ e, clientRes = Except.error e →
      ModelServing.model_serving_endpoint clientRes create endpoint_name messages =
        (Except.error e, 0)) ∧
    (∀ client, clientRes = Except.ok client →
      (ModelServing.model_serving_endpoint clientRes create endpoint_name messages).2 = 1 ∧
      ∀ e, create client endpoint_name messages = Except.error e →
        (ModelServing.model_serving_endpoint clientRes create endpoint_name messages).1 =
          Except.error e) := by
  refine ⟨?_, ?_, ?_⟩
  · cases clientRes with
    | error e => simp [ModelServing.model_serving_endpoint]
    | ok client =>
      cases hc : create client endpoint_name messages with
      | error e => simp [ModelServing.model_serving_endpoint, hc]
      | ok response =>
        cases hch : response.choices with
        | nil => simp [ModelServing.model_serving_endpoint, hc, hch]
        | cons a as => simp [ModelServing.model_serving_endpoint, hc, hch]
  · intro e he
    subst he
    rfl
  · intro client hcl
    subst hcl
    constructor
    · cases hc : create client endpoint_name messages with
      | error e => simp [ModelServing.model_serving_endpoint, hc]
      | ok response =>
        cases hch : response.choices with
        | nil => simp [ModelServing.model_serving_endpoint, hc, hch]
        | cons a as => simp [ModelServing.model_serving_endpoint, hc, hch]
    · intro e hc
      simp [ModelServing.model_serving_endpoint, hc]

/-- Witness for C8: a failing client resolution propagates with zero
attempts, and a failing remote call propagates after exactly one
attempt. -/
theorem model_serving_no_retry_witness :
    ModelServing.model_serving_endpoint (Except.error "auth boom")
        (fun _ _ _ => Except.error "unused") "ep" [] = (Except.error "auth boom", 0) ∧
    (ModelServing.model_serving_endpoint
        (Except.ok { api_key := "k", base_url := "https://h/serving-endpoints" })
        (fun _ _ _ => Except.error "http 500") "ep" []).1 = Except.error "http 500" := by
  constructor
  · exact (model_serving_no_retry (Except.error "auth boom")
      (fun _ _ _ => Except.error "unused") "ep" []).2.1 "auth boom" rfl
  · exact ((model_serving_no_retry
      (Except.ok { api_key := "k", base_url := "https://h/serving-endpoints" })
      (fun _ _ _ => Except.error "http 500") "ep" []).2.2
      { api_key := "k", base_url := "https://h/serving-endpoints" } rfl).2 "http 500" rfl

end AgentMonitoringDemo
